import Mathlib

/-!
Shallow embedding of `src/src/RondevuConnectionManager.ts` of the
`xtr-dev/rondevu-webtorrent` repository.

The source file contains two divergent implementations of the class
`RondevuConnectionManager`, separated by a document separator:

* the **bloom-filter variant** (an explicit offer/answer API with a
  per-torrent `BloomFilter` used for dedup) — embedded here with the
  suffix `A`;
* the **pooled-API variant** (an `offer`/`discover`/`peer` API with an
  `OfferHandle` pool and no dedup filter) — embedded with the suffix `B`.

Topics (infoHashes), peer object handles, offer ids and interval ids are
modelled as natural numbers.  JavaScript `Map`s become association lists
with `Map.set` / `Map.get` / `Map.delete` semantics (`mset`, `mlookup`,
`mdel`); a JavaScript `Set` of peer handles becomes an insertion-ordered
duplicate-free list (`sadd`, `sdel`).  Asynchronous external results
(registration outcome, offers returned by the signaling service, success
of connection attempts) are supplied as explicit environment records, so
each `async` method becomes a pure state-transformer over those inputs.

The `BloomFilter` comes from the external `@xtr-dev/rondevu-client`
package (outside `src/`); the spec treats it as a pluggable
"add / test membership / serialize" capability, so it is modelled as an
exact set of the identities that were added, with serialization returning
those contents.  Nothing in the embedded code ever tests membership, so
the probabilistic nature of the real structure is irrelevant here.
-/

/-- JavaScript `Map.get`: first binding of the key, if any. -/
def mlookup {α : Type} (m : List (Nat × α)) (k : Nat) : Option α :=
  match m with
  | [] => none
  | (k', v) :: rest => if k' = k then some v else mlookup rest k

/-- JavaScript `Map.set`: overwrite the existing binding in place, else append. -/
def mset {α : Type} (m : List (Nat × α)) (k : Nat) (v : α) : List (Nat × α) :=
  match m with
  | [] => [(k, v)]
  | (k', v') :: rest => if k' = k then (k, v) :: rest else (k', v') :: mset rest k v

/-- JavaScript `Map.delete`: remove the binding for the key. -/
def mdel {α : Type} : List (Nat × α) → Nat → List (Nat × α)
  | [], _ => []
  | (k', v) :: rest, k => if k' = k then mdel rest k else (k', v) :: mdel rest k

/-- Removal of a key from a set of registered topics (`Map.delete` on a
map whose values are irrelevant). -/
def ldel : List Nat → Nat → List Nat
  | [], _ => []
  | x :: rest, t => if x = t then ldel rest t else x :: ldel rest t

/-- JavaScript `Set.add`: append unless already present (insertion order kept). -/
def sadd (s : List Nat) (p : Nat) : List Nat :=
  if p ∈ s then s else s ++ [p]

/-- JavaScript `Set.delete`. -/
def sdel (s : List Nat) (p : Nat) : List Nat :=
  s.erase p

/-- Default of the `maxPeersPerTorrent` option (`options.maxPeersPerTorrent ?? 50`). -/
def resolveMaxPeersPerTorrent (given : Option Nat) : Nat :=
  given.getD 50

/-- A remote advertisement as returned by `rondevu.offers.findByTopic`
(bloom-filter variant): offer id, origin identity, and the identity of a
peer that already answered it, if any. -/
structure RemoteOffer where
  oid : Nat
  peerId : Nat
  answererPeerId : Option Nat
deriving DecidableEq, Repr

/-- State of the bloom-filter variant manager.  The five `Map` fields of
the class, plus `liveIntervals` — the ambient set of interval timers
created by `setInterval` and not yet cleared by `clearInterval` (a timer
can be live without being tracked in `refreshTimers`) — and
`addedToEngine`, the log of `torrent.addPeer` calls handed to the
transfer engine. -/
structure StateA where
  torrentPeers : List (Nat × List Nat)
  torrentOffers : List (Nat × List Nat)
  torrentBloomFilters : List (Nat × List Nat)
  refreshTimers : List (Nat × Nat)
  cleanupHandlers : List Nat
  liveIntervals : List Nat
  addedToEngine : List (Nat × Nat)
deriving DecidableEq, Repr

/-- `this.torrentPeers.get(infoHash)?.size ?? 0`. -/
def peerCountA (s : StateA) (t : Nat) : Nat :=
  ((mlookup s.torrentPeers t).getD []).length

/-- Per-torrent part of `getStats()`: `{infoHash, peerCount}` pairs. -/
def getStatsA (s : StateA) : List (Nat × Nat) :=
  s.torrentPeers.map (fun p => (p.1, p.2.length))

/-- External inputs consumed by one `discoverPeersForTorrent` pass of the
bloom-filter variant: own identity, the id minted for the freshly created
offer, whether `createOffer` resp. `findByTopic` resolve, and the remote
offers the service returns. -/
structure EnvA where
  selfId : Nat
  newOfferId : Nat
  offerOk : Bool
  queryOk : Bool
  foundOffers : List RemoteOffer
deriving DecidableEq, Repr

/-- Body of the discovery loop for one remote offer (bloom-filter
variant, lines 242-270): skip own offers, skip offers that already carry
an `answererPeerId`, otherwise add the origin identity to the torrent's
bloom filter (if one is tracked) and hand the offer to
`answerPeer.answer`.  Returns the new state and `some peerId` iff the
offer was handed to the connector; failures of the `answer` call itself
are caught and only logged, so they do not show up in the state. -/
def processAdvertA (selfId : Nat) (s : StateA) (t : Nat) (a : RemoteOffer) :
    StateA × Option Nat :=
  if a.peerId = selfId then (s, none)
  else if a.answererPeerId.isSome then (s, none)
  else
    let s1 :=
      match mlookup s.torrentBloomFilters t with
      | some f =>
        { s with torrentBloomFilters := mset s.torrentBloomFilters t (sadd f a.peerId) }
      | none => s
    (s1, some a.peerId)

/-- The discovery loop folded over all returned offers, collecting the
identities handed to the connector in order. -/
def processAdvertsA (selfId : Nat) (s : StateA) (t : Nat) :
    List RemoteOffer → StateA × List Nat
  | [] => (s, [])
  | a :: rest =>
    let r := processAdvertA selfId s t a
    let rec' := processAdvertsA selfId r.1 t rest
    (rec'.1, r.2.toList ++ rec'.2)

/-- Result of one bloom-filter-variant discovery pass: the state it
leaves behind, whether an offer was created and pushed, whether the
`findByTopic` query was issued, the `limit` and serialized bloom filter
sent with it, and the origin identities handed to `answer`. -/
structure PassOutA where
  state : StateA
  offerCreated : Bool
  queried : Bool
  queryLimit : Nat
  queryFilter : Option (List Nat)
  answered : List Nat
deriving DecidableEq, Repr

/-- `discoverPeersForTorrent` of the bloom-filter variant (lines
204-274).  If the tracked peer count has reached `maxPeersPerTorrent`
the pass returns at once.  Otherwise it creates a fresh offer
(unconditionally, every pass) and pushes its id onto the torrent's offer
list, then queries `findByTopic` with `limit = max - count` and the
serialized bloom filter, and runs the answer loop over the results.  A
failing `createOffer` aborts the pass before the push (outer catch); a
failing query aborts it after the offer was pushed. -/
def discoverPeersForTorrentA (maxPeers : Nat) (env : EnvA) (s : StateA) (t : Nat) :
    PassOutA :=
  let count := peerCountA s t
  if maxPeers ≤ count then ⟨s, false, false, 0, none, []⟩
  else if env.offerOk then
    let s1 :=
      match mlookup s.torrentOffers t with
      | some l => { s with torrentOffers := mset s.torrentOffers t (l ++ [env.newOfferId]) }
      | none => s
    let fb := mlookup s1.torrentBloomFilters t
    if env.queryOk then
      let r := processAdvertsA env.selfId s1 t env.foundOffers
      ⟨r.1, true, true, maxPeers - count, fb, r.2⟩
    else ⟨s1, true, true, maxPeers - count, fb, []⟩
  else ⟨s, false, false, 0, none, []⟩

/-- The `connected` handler installed by `setupPeerHandlers` (lines
286-297): add the peer to the torrent's peer set — with no capacity
check — and hand its connection to the transfer engine. -/
def onConnectedA (s : StateA) (t p : Nat) : StateA :=
  match mlookup s.torrentPeers t with
  | some ps =>
    { s with torrentPeers := mset s.torrentPeers t (sadd ps p),
             addedToEngine := s.addedToEngine ++ [(t, p)] }
  | none => s

/-- The `disconnected` handler: drop the peer from the set. -/
def onDisconnectedA (s : StateA) (t p : Nat) : StateA :=
  match mlookup s.torrentPeers t with
  | some ps => { s with torrentPeers := mset s.torrentPeers t (sdel ps p) }
  | none => s

/-- The `failed` handler: drop the peer from the set. -/
def onFailedA (s : StateA) (t p : Nat) : StateA :=
  match mlookup s.torrentPeers t with
  | some ps => { s with torrentPeers := mset s.torrentPeers t (sdel ps p) }
  | none => s

/-- `handleTorrentAdded` of the bloom-filter variant (lines 130-199):
unconditionally (re-)initialize the per-torrent maps, run one discovery
pass, start a fresh refresh interval (`timerId`, appended to the live
intervals and stored in `refreshTimers`, overwriting — without clearing —
any previously tracked timer), and register the cleanup handler. -/
def handleTorrentAddedA (maxPeers : Nat) (env : EnvA) (s : StateA) (t timerId : Nat) :
    StateA :=
  let s1 := { s with torrentPeers := mset s.torrentPeers t [],
                     torrentOffers := mset s.torrentOffers t [],
                     torrentBloomFilters := mset s.torrentBloomFilters t [] }
  let s2 := (discoverPeersForTorrentA maxPeers env s1 t).state
  let s3 := { s2 with refreshTimers := mset s2.refreshTimers t timerId,
                      liveIntervals := s2.liveIntervals ++ [timerId] }
  { s3 with cleanupHandlers :=
      if t ∈ s3.cleanupHandlers then s3.cleanupHandlers else s3.cleanupHandlers ++ [t] }

/-- One observable teardown step: clearing an interval, closing a peer,
deleting an offer at the signaling service, discarding the bloom filter,
or removing the cleanup-handler registration. -/
inductive CleanupAction where
  | cancelTimer : Nat → CleanupAction
  | closePeer : Nat → CleanupAction
  | cancelOffer : Nat → CleanupAction
  | releaseFilter : CleanupAction
  | unregister : CleanupAction
deriving DecidableEq, Repr

/-- Checks the order asserted by the spec: once a `cancelOffer` appears
in a teardown trace, no `closePeer` may follow it. -/
def closesPrecedeCancels : List CleanupAction → Bool
  | [] => true
  | CleanupAction.cancelOffer _ :: rest =>
    (rest.all fun a =>
      match a with
      | CleanupAction.closePeer _ => false
      | _ => true) && closesPrecedeCancels rest
  | _ :: rest => closesPrecedeCancels rest

/-- Result of running a cleanup closure: final state plus the ordered
trace of attempted effects. -/
structure CleanOutA where
  state : StateA
  trace : List CleanupAction
deriving DecidableEq, Repr

/-- The `cleanup` closure of the bloom-filter variant (lines 150-189):
clear the refresh timer, close every tracked peer (each close wrapped in
try/catch, so individual failures only log), delete every tracked offer
(likewise individually guarded), drop the bloom filter, drop the
cleanup-handler registration.  Each map entry is deleted at the end of
its own step. -/
def cleanupA (s : StateA) (t : Nat) : CleanOutA :=
  let p1 :=
    match mlookup s.refreshTimers t with
    | some tid =>
      ({ s with refreshTimers := mdel s.refreshTimers t,
                liveIntervals := s.liveIntervals.erase tid },
       [CleanupAction.cancelTimer tid])
    | none => (s, ([] : List CleanupAction))
  let p2 :=
    match mlookup p1.1.torrentPeers t with
    | some ps =>
      ({ p1.1 with torrentPeers := mdel p1.1.torrentPeers t },
       ps.map CleanupAction.closePeer)
    | none => (p1.1, ([] : List CleanupAction))
  let p3 :=
    match mlookup p2.1.torrentOffers t with
    | some os =>
      ({ p2.1 with torrentOffers := mdel p2.1.torrentOffers t },
       os.map CleanupAction.cancelOffer)
    | none => (p2.1, ([] : List CleanupAction))
  let s4 := { p3.1 with torrentBloomFilters := mdel p3.1.torrentBloomFilters t }
  let s5 := { s4 with cleanupHandlers := ldel s4.cleanupHandlers t }
  ⟨s5, p1.2 ++ p2.2 ++ p3.2 ++ [CleanupAction.releaseFilter, CleanupAction.unregister]⟩

/-- Effects performed by `initialize`: attaching the `torrent` listener
to the WebTorrent client, and handling each already-present torrent. -/
inductive InitAction where
  | attachTorrentListener : InitAction
  | handleExisting : Nat → InitAction
deriving DecidableEq, Repr

/-- `initialize` of the bloom-filter variant (lines 101-125), as the list
of effects it performs given whether `rondevu.register()` (or the
credential check) succeeds.  On failure it logs and returns, performing
nothing further; it is invoked once, from the constructor, and nothing
ever re-invokes it. -/
def initActionsA (registerOk : Bool) (existing : List Nat) : List InitAction :=
  if registerOk then
    InitAction.attachTorrentListener :: existing.map InitAction.handleExisting
  else []

/-- The WebTorrent client's event dispatch: a `torrent` event (topic
paired with a fresh interval id) reaches the added-torrent handler iff
the listener was attached during the manager's startup. -/
def clientDispatchA (acts : List InitAction) (maxPeers : Nat) (env : EnvA)
    (s : StateA) (events : List (Nat × Nat)) : StateA :=
  if InitAction.attachTorrentListener ∈ acts then
    events.foldl (fun st e => handleTorrentAddedA maxPeers env st e.1 e.2) s
  else s

/-- State of the pooled-API variant manager: whether `this.rondevu` was
set by a successful `Rondevu.connect`, the four `Map` fields of the
class, the ambient live intervals, and the log of peers handed to the
transfer engine. -/
structure StateB where
  rondevuReady : Bool
  torrentOfferHandles : List (Nat × Nat)
  torrentPeers : List (Nat × List Nat)
  cleanupHandlers : List Nat
  refreshTimers : List (Nat × Nat)
  liveIntervals : List Nat
  addedToEngine : List (Nat × Nat)
deriving DecidableEq, Repr

/-- `this.torrentPeers.get(infoHash)?.size ?? 0` (pooled variant). -/
def peerCountB (s : StateB) (t : Nat) : Nat :=
  ((mlookup s.torrentPeers t).getD []).length

/-- Per-torrent part of `getStats()` (pooled variant). -/
def getStatsB (s : StateB) : List (Nat × Nat) :=
  s.torrentPeers.map (fun p => (p.1, p.2.length))

/-- External inputs of one pooled-variant discovery pass: own username,
the handle minted by `rondevu.offer`, whether `offer` resp. `discover`
resolve, the usernames of the offers `discover` returns, and — per
username — whether the `rondevu.peer` call resolves and which peer
object it yields. -/
structure EnvB where
  selfName : Nat
  newOfferHandle : Nat
  offerOk : Bool
  queryOk : Bool
  foundOffers : List Nat
  connectOk : Nat → Bool
  peerIdOf : Nat → Nat

/-- `this.torrentPeers.get(infoHash)?.add(peer)` (pooled variant, line
760): a no-op when the torrent's entry has been removed. -/
def addPeerB (s : StateB) (t p : Nat) : StateB :=
  match mlookup s.torrentPeers t with
  | some ps => { s with torrentPeers := mset s.torrentPeers t (sadd ps p) }
  | none => s

/-- The pooled-variant connect loop (lines 745-791): for each discovered
offer, skip our own username, otherwise call `rondevu.peer` — recording
the username as attempted — and, the moment the promise resolves, insert
the peer object into the torrent's peer set (before any transport
event); a rejected `rondevu.peer` is caught and only logged. -/
def processOffersB (env : EnvB) (s : StateB) (t : Nat) : List Nat → StateB × List Nat
  | [] => (s, [])
  | u :: rest =>
    if u = env.selfName then processOffersB env s t rest
    else
      let s1 := if env.connectOk u then addPeerB s t (env.peerIdOf u) else s
      let r := processOffersB env s1 t rest
      (r.1, u :: r.2)

/-- Result of one pooled-variant discovery pass. -/
structure PassOutB where
  state : StateB
  offerCreated : Bool
  queried : Bool
  attempted : List Nat
deriving DecidableEq, Repr

/-- The query-and-connect phase shared by both branches of the offer
check in `discoverPeersForTorrent` (pooled variant): issue
`rondevu.discover`; a rejection is caught by the outer catch, ending the
pass; otherwise run the connect loop. -/
def queryPhaseB (env : EnvB) (s : StateB) (t : Nat) (oc : Bool) : PassOutB :=
  if env.queryOk then
    let r := processOffersB env s t env.foundOffers
    ⟨r.1, oc, true, r.2⟩
  else ⟨s, oc, true, []⟩

/-- `discoverPeersForTorrent` of the pooled variant (lines 689-795).
Returns at once if `rondevu` is unset or the peer count has reached the
cap.  Creates an offer handle only when none is tracked for the topic
(`!this.torrentOfferHandles.has(infoHash)`); a rejected `rondevu.offer`
is caught by the outer catch and aborts the pass before anything is
tracked.  Then discovers and connects. -/
def discoverPeersForTorrentB (maxPeers : Nat) (env : EnvB) (s : StateB) (t : Nat) :
    PassOutB :=
  if s.rondevuReady = false then ⟨s, false, false, []⟩
  else if maxPeers ≤ peerCountB s t then ⟨s, false, false, []⟩
  else
    match mlookup s.torrentOfferHandles t with
    | none =>
      if env.offerOk then
        let s1 :=
          { s with torrentOfferHandles := mset s.torrentOfferHandles t env.newOfferHandle }
        queryPhaseB env s1 t true
      else ⟨s, false, false, []⟩
    | some _ => queryPhaseB env s t false

/-- The `open` handler of a pooled-variant peer (lines 763-777): the
peer set is not touched — the peer is already in it — and the underlying
connection is wrapped and handed to the transfer engine. -/
def onOpenB (s : StateB) (t p : Nat) : StateB :=
  { s with addedToEngine := s.addedToEngine ++ [(t, p)] }

/-- The `close` handler (lines 779-782): drop the peer from the set. -/
def onCloseB (s : StateB) (t p : Nat) : StateB :=
  match mlookup s.torrentPeers t with
  | some ps => { s with torrentPeers := mset s.torrentPeers t (sdel ps p) }
  | none => s

/-- The `error` handler (lines 784-787): drop the peer from the set. -/
def onErrorB (s : StateB) (t p : Nat) : StateB :=
  match mlookup s.torrentPeers t with
  | some ps => { s with torrentPeers := mset s.torrentPeers t (sdel ps p) }
  | none => s

/-- `handleTorrentAdded` of the pooled variant (lines 621-684): bail out
when `rondevu` is unset; otherwise unconditionally (re-)initialize the
peer set, run one discovery pass, start a fresh refresh interval
(overwriting — without clearing — any previously tracked timer), and
register the cleanup handler. -/
def handleTorrentAddedB (maxPeers : Nat) (env : EnvB) (s : StateB) (t timerId : Nat) :
    StateB :=
  if s.rondevuReady = false then s
  else
    let s1 := { s with torrentPeers := mset s.torrentPeers t [] }
    let s2 := (discoverPeersForTorrentB maxPeers env s1 t).state
    let s3 := { s2 with refreshTimers := mset s2.refreshTimers t timerId,
                        liveIntervals := s2.liveIntervals ++ [timerId] }
    { s3 with cleanupHandlers :=
        if t ∈ s3.cleanupHandlers then s3.cleanupHandlers else s3.cleanupHandlers ++ [t] }

/-- The peer-closing step of the pooled-variant cleanup: close every
tracked peer (each close individually guarded by try/catch) and drop the
map entry. -/
def closePeersB (s : StateB) (t : Nat) : StateB × List CleanupAction :=
  match mlookup s.torrentPeers t with
  | some ps =>
    ({ s with torrentPeers := mdel s.torrentPeers t }, ps.map CleanupAction.closePeer)
  | none => (s, ([] : List CleanupAction))

/-- Result of running the pooled-variant cleanup closure: final state,
trace of attempted effects, and whether an exception escaped it. -/
structure CleanOutB where
  state : StateB
  trace : List CleanupAction
  raised : Bool
deriving Repr

/-- The `cleanup` closure of the pooled variant (lines 644-674): clear
the refresh timer, then cancel the tracked offer handle — this call is
NOT wrapped in try/catch, so `cancelFails` models a synchronously
throwing `offerHandle.cancel()`, which aborts the remaining steps and
leaves the offer-handle entry in place — then close every tracked peer
and drop the cleanup-handler registration. -/
def cleanupB (cancelFails : Bool) (s : StateB) (t : Nat) : CleanOutB :=
  let p1 :=
    match mlookup s.refreshTimers t with
    | some tid =>
      ({ s with refreshTimers := mdel s.refreshTimers t,
                liveIntervals := s.liveIntervals.erase tid },
       [CleanupAction.cancelTimer tid])
    | none => (s, ([] : List CleanupAction))
  match mlookup p1.1.torrentOfferHandles t with
  | some oid =>
    if cancelFails then ⟨p1.1, p1.2 ++ [CleanupAction.cancelOffer oid], true⟩
    else
      let s2 := { p1.1 with torrentOfferHandles := mdel p1.1.torrentOfferHandles t }
      let p3 := closePeersB s2 t
      ⟨{ p3.1 with cleanupHandlers := ldel p3.1.cleanupHandlers t },
       p1.2 ++ [CleanupAction.cancelOffer oid] ++ p3.2 ++ [CleanupAction.unregister],
       false⟩
  | none =>
    let p3 := closePeersB p1.1 t
    ⟨{ p3.1 with cleanupHandlers := ldel p3.1.cleanupHandlers t },
     p1.2 ++ p3.2 ++ [CleanupAction.unregister], false⟩

/-- `initialize` of the pooled variant (lines 578-616), as the list of
effects it performs given whether `Rondevu.connect` resolves.  On
rejection it logs and returns; `this.rondevu` stays `null`, no listener
is attached, and nothing ever re-invokes it. -/
def initActionsB (connectOk : Bool) (existing : List Nat) : List InitAction :=
  if connectOk then
    InitAction.attachTorrentListener :: existing.map InitAction.handleExisting
  else []

/-- The WebTorrent client's event dispatch for the pooled variant. -/
def clientDispatchB (acts : List InitAction) (maxPeers : Nat) (env : EnvB)
    (s : StateB) (events : List (Nat × Nat)) : StateB :=
  if InitAction.attachTorrentListener ∈ acts then
    events.foldl (fun st e => handleTorrentAddedB maxPeers env st e.1 e.2) s
  else s

/-! Concrete states and environments used as test inputs below. -/

/-- The manager's state right after construction: every map empty, no
live intervals, nothing handed to the engine. -/
def initialStateA : StateA := ⟨[], [], [], [], [], [], []⟩

/-- Environment for a pass that finds one remote advertisement from
identity 7 (offer id 10, not yet answered); own identity is 0. -/
def envC1 : EnvA := ⟨0, 5, true, true, [⟨10, 7, none⟩]⟩

/-- A state with topic 0 at a peer cap of 1: one tracked peer. -/
def stateCapW : StateA := ⟨[(0, [3])], [], [], [], [], [], []⟩

/-- The reachable state used against claim C1: topic 0 added with
`maxPeersPerTorrent = 1`, the pass answers identity 7's advertisement,
and then both in-flight connections (the offer peer 20 and the answer
peer 21) complete. -/
def stateC1 : StateA :=
  onConnectedA (onConnectedA (handleTorrentAddedA 1 envC1 initialStateA 0 100) 0 20) 0 21

/-- A freshly registered topic 0: empty peer set, offer list and filter. -/
def stateC2 : StateA := ⟨[(0, [])], [(0, [])], [(0, [])], [], [], [], []⟩

/-- First pass environment for claim C2: identity 7 advertises offer 10. -/
def envC2a : EnvA := ⟨0, 5, true, true, [⟨10, 7, none⟩]⟩

/-- Second pass environment for claim C2: the service returns identity 7
again, as offer 12, although 7 is in the filter sent with the query. -/
def envC2b : EnvA := ⟨0, 6, true, true, [⟨12, 7, none⟩]⟩

/-- Topic 0 whose dedup filter already contains identity 7. -/
def stateC2W : StateA := ⟨[(0, [])], [(0, [])], [(0, [7])], [], [], [], []⟩

/-- Environment whose offer creation and query both reject, so a pass
leaves the state untouched. -/
def envC3 : EnvA := ⟨0, 5, false, false, []⟩

/-- State after adding topic 0 (interval id 1) and one peer connecting. -/
def stateC3 : StateA := onConnectedA (handleTorrentAddedA 50 envC3 initialStateA 0 1) 0 7

/-- Pooled-variant state with topic 0 fully populated: tracked offer
handle 9, tracked peer 5, refresh timer 1, registered cleanup handler. -/
def stateC4 : StateB := ⟨true, [(0, 9)], [(0, [5])], [0], [(0, 1)], [1], []⟩

/-- Topic 0 already tracking offer 4 in the bloom-filter variant. -/
def stateC6 : StateA := ⟨[(0, [])], [(0, [4])], [(0, [])], [], [], [], []⟩

/-- Environment minting offer 9 and finding no remote offers. -/
def envC6 : EnvA := ⟨0, 9, true, true, []⟩

/-- Pooled-variant environment: own username 0, fresh offer handle 9,
one discovered offer from username 3, every connection attempt resolves,
and the peer object for username u is u + 100. -/
def envB0 : EnvB := ⟨0, 9, true, true, [3], fun _ => true, fun u => u + 100⟩

/-- Pooled-variant state with topic 0 tracking offer handle 4. -/
def stateC6W : StateB := ⟨true, [(0, 4)], [(0, [])], [], [], [], []⟩

/-- Pooled-variant topic 0 at a cap of 2: two tracked peers. -/
def stateC7 : StateB := ⟨true, [], [(0, [1, 2])], [], [], [], []⟩

/-- Bloom-variant topic 0 at a cap of 2: two tracked peers. -/
def stateC7A : StateA := ⟨[(0, [1, 2])], [(0, [])], [(0, [])], [], [], [], []⟩

/-- Pooled-variant topic 0 with a tracked offer handle and empty peer set. -/
def stateC9 : StateB := ⟨true, [(0, 4)], [(0, [])], [], [], [], []⟩

/-- Environment for claim C10's witness: the only advertisement found was
already answered (by peer 3). -/
def envC10 : EnvA := ⟨0, 5, true, true, [⟨1, 7, some 3⟩]⟩

/-! Basic facts about the map and set operations. -/

theorem mlookup_mset_self {α : Type} (m : List (Nat × α)) (k : Nat) (v : α) :
    mlookup (mset m k v) k = some v := by
  induction m with
  | nil => simp [mset, mlookup]
  | cons hd tl ih =>
    obtain ⟨k', v'⟩ := hd
    by_cases h : k' = k
    · simp [mset, mlookup, h]
    · simp [mset, mlookup, h, ih]

theorem mlookup_mdel_self {α : Type} (m : List (Nat × α)) (k : Nat) :
    mlookup (mdel m k) k = none := by
  induction m with
  | nil => rfl
  | cons hd tl ih =>
    obtain ⟨k', v'⟩ := hd
    by_cases h : k' = k
    · simp [mdel, h, ih]
    · simp [mdel, mlookup, h, ih]

theorem mdel_mdel {α : Type} (m : List (Nat × α)) (k : Nat) :
    mdel (mdel m k) k = mdel m k := by
  induction m with
  | nil => rfl
  | cons hd tl ih =>
    obtain ⟨k', v'⟩ := hd
    by_cases h : k' = k
    · simp [mdel, h, ih]
    · simp [mdel, h, ih]

theorem mdel_eq_of_lookup_none {α : Type} (m : List (Nat × α)) (k : Nat)
    (h : mlookup m k = none) : mdel m k = m := by
  induction m with
  | nil => rfl
  | cons hd tl ih =>
    obtain ⟨k', v'⟩ := hd
    by_cases hk : k' = k
    · simp [mlookup, hk] at h
    · simp [mlookup, hk] at h
      simp [mdel, hk, ih h]

theorem ldel_ldel (l : List Nat) (t : Nat) : ldel (ldel l t) t = ldel l t := by
  induction l with
  | nil => rfl
  | cons x rest ih =>
    by_cases h : x = t
    · simp [ldel, h, ih]
    · simp [ldel, h, ih]

theorem mem_sadd_self (s : List Nat) (p : Nat) : p ∈ sadd s p := by
  by_cases h : p ∈ s <;> simp [sadd, h]

theorem mem_sadd_of_mem (s : List Nat) (p x : Nat) (h : x ∈ s) : x ∈ sadd s p := by
  by_cases hp : p ∈ s <;> simp [sadd, hp, h]

/-! Structural facts about the bloom-filter variant's discovery pass. -/

theorem processAdvertA_fields (selfId : Nat) (s : StateA) (t : Nat) (a : RemoteOffer) :
    ((processAdvertA selfId s t a).1).torrentPeers = s.torrentPeers ∧
    ((processAdvertA selfId s t a).1).torrentOffers = s.torrentOffers ∧
    ((processAdvertA selfId s t a).1).refreshTimers = s.refreshTimers ∧
    ((processAdvertA selfId s t a).1).cleanupHandlers = s.cleanupHandlers ∧
    ((processAdvertA selfId s t a).1).liveIntervals = s.liveIntervals ∧
    ((processAdvertA selfId s t a).1).addedToEngine = s.addedToEngine := by
  unfold processAdvertA
  repeat' split
  all_goals simp

theorem processAdvertsA_fields (selfId : Nat) (t : Nat) (l : List RemoteOffer) :
    ∀ s : StateA,
    ((processAdvertsA selfId s t l).1).torrentPeers = s.torrentPeers ∧
    ((processAdvertsA selfId s t l).1).torrentOffers = s.torrentOffers ∧
    ((processAdvertsA selfId s t l).1).refreshTimers = s.refreshTimers ∧
    ((processAdvertsA selfId s t l).1).cleanupHandlers = s.cleanupHandlers ∧
    ((processAdvertsA selfId s t l).1).liveIntervals = s.liveIntervals ∧
    ((processAdvertsA selfId s t l).1).addedToEngine = s.addedToEngine := by
  induction l with
  | nil => intro s; simp [processAdvertsA]
  | cons a rest ih =>
    intro s
    have h1 := processAdvertA_fields selfId s t a
    have h2 := ih (processAdvertA selfId s t a).1
    simp only [processAdvertsA]
    exact ⟨h2.1.trans h1.1, h2.2.1.trans h1.2.1, h2.2.2.1.trans h1.2.2.1,
      h2.2.2.2.1.trans h1.2.2.2.1, h2.2.2.2.2.1.trans h1.2.2.2.2.1,
      h2.2.2.2.2.2.trans h1.2.2.2.2.2⟩

theorem passA_preserved_fields (m : Nat) (env : EnvA) (s : StateA) (t : Nat) :
    ((discoverPeersForTorrentA m env s t).state).torrentPeers = s.torrentPeers ∧
    ((discoverPeersForTorrentA m env s t).state).refreshTimers = s.refreshTimers ∧
    ((discoverPeersForTorrentA m env s t).state).cleanupHandlers = s.cleanupHandlers ∧
    ((discoverPeersForTorrentA m env s t).state).liveIntervals = s.liveIntervals ∧
    ((discoverPeersForTorrentA m env s t).state).addedToEngine = s.addedToEngine := by
  unfold discoverPeersForTorrentA
  by_cases hc : m ≤ peerCountA s t
  · simp [hc]
  · simp only [hc, if_false]
    by_cases ho : env.offerOk
    · simp only [ho, if_true]
      cases hl : mlookup s.torrentOffers t with
      | none =>
        have hp := processAdvertsA_fields env.selfId t env.foundOffers s
        by_cases hq : env.queryOk <;> simp [hl, hq, hp.1, hp.2.1, hp.2.2.1,
          hp.2.2.2.1, hp.2.2.2.2.1, hp.2.2.2.2.2]
      | some l =>
        have hp := processAdvertsA_fields env.selfId t env.foundOffers
          { s with torrentOffers := mset s.torrentOffers t (l ++ [env.newOfferId]) }
        by_cases hq : env.queryOk <;> simp [hl, hq, hp.1, hp.2.1, hp.2.2.1,
          hp.2.2.2.1, hp.2.2.2.2.1, hp.2.2.2.2.2]
    · simp [ho]

theorem passA_guard (m : Nat) (env : EnvA) (s : StateA) (t : Nat)
    (h : m ≤ peerCountA s t) :
    discoverPeersForTorrentA m env s t = ⟨s, false, false, 0, none, []⟩ := by
  simp [discoverPeersForTorrentA, h]

theorem passB_guard (m : Nat) (env : EnvB) (s : StateB) (t : Nat)
    (h : m ≤ peerCountB s t) :
    discoverPeersForTorrentB m env s t = ⟨s, false, false, []⟩ := by
  unfold discoverPeersForTorrentB
  by_cases hr : s.rondevuReady <;> simp [hr, h]

theorem passA_offers_grow (m : Nat) (env : EnvA) (s : StateA) (t : Nat)
    (l : List Nat) (hc : peerCountA s t < m) (ho : env.offerOk = true)
    (hl : mlookup s.torrentOffers t = some l) :
    mlookup ((discoverPeersForTorrentA m env s t).state).torrentOffers t
      = some (l ++ [env.newOfferId]) := by
  unfold discoverPeersForTorrentA
  have hc' : ¬ m ≤ peerCountA s t := by omega
  have hp := processAdvertsA_fields env.selfId t env.foundOffers
    { s with torrentOffers := mset s.torrentOffers t (l ++ [env.newOfferId]) }
  by_cases hq : env.queryOk <;>
    simp [hc', ho, hq, hl, hp.2.1, mlookup_mset_self]

theorem passA_query_filter (m : Nat) (env : EnvA) (s : StateA) (t : Nat)
    (hc : peerCountA s t < m) (ho : env.offerOk = true) :
    (discoverPeersForTorrentA m env s t).queryFilter
      = mlookup s.torrentBloomFilters t ∧
    (discoverPeersForTorrentA m env s t).queried = true := by
  unfold discoverPeersForTorrentA
  have hc' : ¬ m ≤ peerCountA s t := by omega
  cases hl : mlookup s.torrentOffers t with
  | none => by_cases hq : env.queryOk <;> simp [hc', ho, hq, hl]
  | some l => by_cases hq : env.queryOk <;> simp [hc', ho, hq, hl]

theorem processAdvertA_skip_answered (selfId : Nat) (s : StateA) (t : Nat)
    (a : RemoteOffer) (h : a.answererPeerId.isSome = true) :
    processAdvertA selfId s t a = (s, none) := by
  unfold processAdvertA
  by_cases hs : a.peerId = selfId <;> simp [hs, h]

theorem processAdvertA_answers (selfId : Nat) (s : StateA) (t : Nat)
    (a : RemoteOffer) (hs : a.peerId ≠ selfId) (ha : a.answererPeerId = none) :
    (processAdvertA selfId s t a).2 = some a.peerId := by
  simp [processAdvertA, hs, ha]

theorem processAdvertA_records (selfId : Nat) (s : StateA) (t : Nat)
    (a : RemoteOffer) (f : List Nat) (hs : a.peerId ≠ selfId)
    (ha : a.answererPeerId = none) (hf : mlookup s.torrentBloomFilters t = some f) :
    ((processAdvertA selfId s t a).1).torrentBloomFilters
      = mset s.torrentBloomFilters t (sadd f a.peerId) := by
  simp [processAdvertA, hs, ha, hf]

theorem processAdvertsA_all_skip (selfId : Nat) (t : Nat) (l : List RemoteOffer)
    (hall : ∀ a ∈ l, a.answererPeerId.isSome = true) :
    ∀ s : StateA, processAdvertsA selfId s t l = (s, []) := by
  induction l with
  | nil => intro s; rfl
  | cons a rest ih =>
    intro s
    have h1 : processAdvertA selfId s t a = (s, none) :=
      processAdvertA_skip_answered selfId s t a (hall a (by simp))
    have h2 := ih (fun a ha => hall a (by simp [ha])) s
    simp [processAdvertsA, h1, h2]

/-! Structural facts about the pooled variant's discovery pass. -/

theorem addPeerB_lookup (s : StateB) (t p : Nat) (ps : List Nat)
    (h : mlookup s.torrentPeers t = some ps) :
    mlookup ((addPeerB s t p).torrentPeers) t = some (sadd ps p) := by
  simp [addPeerB, h, mlookup_mset_self]

theorem addPeerB_isSome (s : StateB) (t p : Nat)
    (h : (mlookup s.torrentPeers t).isSome = true) :
    (mlookup ((addPeerB s t p).torrentPeers) t).isSome = true := by
  cases hl : mlookup s.torrentPeers t with
  | none => simp [hl] at h
  | some ps => simp [addPeerB_lookup s t p ps hl]

theorem addPeerB_mem (s : StateB) (t p x : Nat)
    (h : x ∈ (mlookup s.torrentPeers t).getD []) :
    x ∈ (mlookup ((addPeerB s t p).torrentPeers) t).getD [] := by
  cases hl : mlookup s.torrentPeers t with
  | none => simp [hl] at h
  | some ps =>
    rw [hl] at h
    simp only [Option.getD_some] at h
    simp [addPeerB_lookup s t p ps hl, mem_sadd_of_mem ps p x h]

theorem addPeerB_handles (s : StateB) (t p : Nat) :
    (addPeerB s t p).torrentOfferHandles = s.torrentOfferHandles := by
  unfold addPeerB
  split <;> rfl

theorem processOffersB_handles (env : EnvB) (t : Nat) (l : List Nat) :
    ∀ s : StateB,
    ((processOffersB env s t l).1).torrentOfferHandles = s.torrentOfferHandles := by
  induction l with
  | nil => intro s; rfl
  | cons u rest ih =>
    intro s
    by_cases hu : u = env.selfName
    · simp [processOffersB, hu, ih s]
    · by_cases hk : env.connectOk u <;>
        simp [processOffersB, hu, hk, ih, addPeerB_handles]

theorem processOffersB_isSome (env : EnvB) (t : Nat) (l : List Nat) :
    ∀ s : StateB, (mlookup s.torrentPeers t).isSome = true →
    (mlookup ((processOffersB env s t l).1).torrentPeers t).isSome = true := by
  induction l with
  | nil => intro s h; exact h
  | cons u rest ih =>
    intro s h
    by_cases hu : u = env.selfName
    · simpa [processOffersB, hu] using ih s h
    · by_cases hk : env.connectOk u
      · simpa [processOffersB, hu, hk] using
          ih (addPeerB s t (env.peerIdOf u)) (addPeerB_isSome s t (env.peerIdOf u) h)
      · simpa [processOffersB, hu, hk] using ih s h

theorem processOffersB_mem_mono (env : EnvB) (t : Nat) (l : List Nat) :
    ∀ (s : StateB) (x : Nat), x ∈ (mlookup s.torrentPeers t).getD [] →
    x ∈ (mlookup ((processOffersB env s t l).1).torrentPeers t).getD [] := by
  induction l with
  | nil => intro s x h; exact h
  | cons u rest ih =>
    intro s x h
    by_cases hu : u = env.selfName
    · simpa [processOffersB, hu] using ih s x h
    · by_cases hk : env.connectOk u
      · simpa [processOffersB, hu, hk] using
          ih (addPeerB s t (env.peerIdOf u)) x (addPeerB_mem s t (env.peerIdOf u) x h)
      · simpa [processOffersB, hu, hk] using ih s x h

theorem processOffersB_connects (env : EnvB) (t : Nat) (l : List Nat) :
    ∀ (s : StateB) (u : Nat), u ∈ l → u ≠ env.selfName → env.connectOk u = true →
    (mlookup s.torrentPeers t).isSome = true →
    env.peerIdOf u ∈ (mlookup ((processOffersB env s t l).1).torrentPeers t).getD [] := by
  induction l with
  | nil => intro s u hu; simp at hu
  | cons v rest ih =>
    intro s u hu hself hok hsome
    rcases List.mem_cons.mp hu with hv | hrest
    · subst hv
      have hm : env.peerIdOf u ∈ (mlookup ((addPeerB s t (env.peerIdOf u)).torrentPeers) t).getD [] := by
        cases hl : mlookup s.torrentPeers t with
        | none => simp [hl] at hsome
        | some ps => simp [addPeerB_lookup s t (env.peerIdOf u) ps hl, mem_sadd_self]
      simpa [processOffersB, hself, hok] using
        processOffersB_mem_mono env t rest (addPeerB s t (env.peerIdOf u)) (env.peerIdOf u) hm
    · by_cases hv' : v = env.selfName
      · simpa [processOffersB, hv'] using ih s u hrest hself hok hsome
      · by_cases hk : env.connectOk v
        · simpa [processOffersB, hv', hk] using
            ih (addPeerB s t (env.peerIdOf v)) u hrest hself hok
              (addPeerB_isSome s t (env.peerIdOf v) hsome)
        · simpa [processOffersB, hv', hk] using ih s u hrest hself hok hsome

theorem passB_offer_guard (m : Nat) (env : EnvB) (s : StateB) (t : Nat)
    (h : (mlookup s.torrentOfferHandles t).isSome = true) :
    (discoverPeersForTorrentB m env s t).offerCreated = false ∧
    ((discoverPeersForTorrentB m env s t).state).torrentOfferHandles
      = s.torrentOfferHandles := by
  unfold discoverPeersForTorrentB
  by_cases hr : s.rondevuReady
  · by_cases hc : m ≤ peerCountB s t
    · simp [hr, hc]
    · cases hh : mlookup s.torrentOfferHandles t with
      | none => simp [hh] at h
      | some oid =>
        by_cases hq : env.queryOk <;>
          simp [hr, hc, hh, queryPhaseB, hq, processOffersB_handles]
  · simp at hr
    simp [hr]

theorem passB_connects (m : Nat) (env : EnvB) (s : StateB) (t u : Nat)
    (hr : s.rondevuReady = true) (hc : peerCountB s t < m)
    (hq : env.queryOk = true)
    (hsome : (mlookup s.torrentPeers t).isSome = true)
    (hens : (mlookup s.torrentOfferHandles t).isSome = true ∨ env.offerOk = true)
    (hu : u ∈ env.foundOffers) (hself : u ≠ env.selfName)
    (hok : env.connectOk u = true) :
    env.peerIdOf u ∈
      (mlookup ((discoverPeersForTorrentB m env s t).state).torrentPeers t).getD [] := by
  unfold discoverPeersForTorrentB
  have hc' : ¬ m ≤ peerCountB s t := by omega
  cases hh : mlookup s.torrentOfferHandles t with
  | some oid =>
    simpa [hr, hc', hh, queryPhaseB, hq] using
      processOffersB_connects env t env.foundOffers s u hu hself hok hsome
  | none =>
    have ho : env.offerOk = true := by
      rcases hens with h | h
      · simp [hh] at h
      · exact h
    simpa [hr, hc', hh, ho, queryPhaseB, hq] using
      processOffersB_connects env t env.foundOffers
        { s with torrentOfferHandles := mset s.torrentOfferHandles t env.newOfferHandle }
        u hu hself hok hsome

/-! Characterization of the two teardown closures. -/

theorem cleanupA_state_eq (s : StateA) (t : Nat) :
    (cleanupA s t).state =
      { torrentPeers := mdel s.torrentPeers t,
        torrentOffers := mdel s.torrentOffers t,
        torrentBloomFilters := mdel s.torrentBloomFilters t,
        refreshTimers := mdel s.refreshTimers t,
        cleanupHandlers := ldel s.cleanupHandlers t,
        liveIntervals :=
          match mlookup s.refreshTimers t with
          | some tid => s.liveIntervals.erase tid
          | none => s.liveIntervals,
        addedToEngine := s.addedToEngine } := by
  unfold cleanupA
  cases h1 : mlookup s.refreshTimers t <;>
    cases h2 : mlookup s.torrentPeers t <;>
      cases h3 : mlookup s.torrentOffers t <;>
        simp [h1, h2, h3, mdel_eq_of_lookup_none]

theorem cleanupA_trace_eq (s : StateA) (t : Nat) :
    (cleanupA s t).trace =
      (match mlookup s.refreshTimers t with
       | some tid => [CleanupAction.cancelTimer tid]
       | none => []) ++
      ((mlookup s.torrentPeers t).getD []).map CleanupAction.closePeer ++
      ((mlookup s.torrentOffers t).getD []).map CleanupAction.cancelOffer ++
      [CleanupAction.releaseFilter, CleanupAction.unregister] := by
  unfold cleanupA
  cases h1 : mlookup s.refreshTimers t <;>
    cases h2 : mlookup s.torrentPeers t <;>
      cases h3 : mlookup s.torrentOffers t <;>
        simp [h1, h2, h3]

theorem cleanupB_state_eq (s : StateB) (t : Nat) :
    (cleanupB false s t).state =
      { rondevuReady := s.rondevuReady,
        torrentOfferHandles := mdel s.torrentOfferHandles t,
        torrentPeers := mdel s.torrentPeers t,
        cleanupHandlers := ldel s.cleanupHandlers t,
        refreshTimers := mdel s.refreshTimers t,
        liveIntervals :=
          match mlookup s.refreshTimers t with
          | some tid => s.liveIntervals.erase tid
          | none => s.liveIntervals,
        addedToEngine := s.addedToEngine } := by
  unfold cleanupB closePeersB
  cases h1 : mlookup s.refreshTimers t <;>
    cases h2 : mlookup s.torrentOfferHandles t <;>
      cases h3 : mlookup s.torrentPeers t <;>
        simp [h1, h2, h3, mdel_eq_of_lookup_none]

theorem cleanupB_trace_eq (s : StateB) (t : Nat) :
    (cleanupB false s t).trace =
      (match mlookup s.refreshTimers t with
       | some tid => [CleanupAction.cancelTimer tid]
       | none => []) ++
      (match mlookup s.torrentOfferHandles t with
       | some oid => [CleanupAction.cancelOffer oid]
       | none => []) ++
      ((mlookup s.torrentPeers t).getD []).map CleanupAction.closePeer ++
      [CleanupAction.unregister] := by
  unfold cleanupB closePeersB
  cases h1 : mlookup s.refreshTimers t <;>
    cases h2 : mlookup s.torrentOfferHandles t <;>
      cases h3 : mlookup s.torrentPeers t <;>
        simp [h1, h2, h3]

theorem cleanupB_no_raise (s : StateB) (t : Nat) : (cleanupB false s t).raised = false := by
  unfold cleanupB closePeersB
  cases h1 : mlookup s.refreshTimers t <;>
    cases h2 : mlookup s.torrentOfferHandles t <;>
      cases h3 : mlookup s.torrentPeers t <;>
        simp [h1, h2, h3]

theorem cleanupB_abort (s : StateB) (t oid : Nat)
    (h : mlookup s.torrentOfferHandles t = some oid) :
    (cleanupB true s t).raised = true ∧
    (cleanupB true s t).trace =
      (match mlookup s.refreshTimers t with
       | some tid => [CleanupAction.cancelTimer tid]
       | none => []) ++ [CleanupAction.cancelOffer oid] ∧
    mlookup ((cleanupB true s t).state).torrentPeers t = mlookup s.torrentPeers t ∧
    mlookup ((cleanupB true s t).state).torrentOfferHandles t = some oid := by
  unfold cleanupB
  cases h1 : mlookup s.refreshTimers t <;> simp [h1, h]

theorem cleanupA_idem (s : StateA) (t : Nat) :
    cleanupA ((cleanupA s t).state) t =
      ⟨(cleanupA s t).state, [CleanupAction.releaseFilter, CleanupAction.unregister]⟩ := by
  have e : cleanupA ((cleanupA s t).state) t =
      ⟨(cleanupA ((cleanupA s t).state) t).state,
       (cleanupA ((cleanupA s t).state) t).trace⟩ := rfl
  rw [e, cleanupA_state_eq (cleanupA s t).state t, cleanupA_trace_eq (cleanupA s t).state t,
    cleanupA_state_eq s t]
  simp [mdel_mdel, ldel_ldel, mlookup_mdel_self]

theorem cleanupB_idem (s : StateB) (t : Nat) :
    cleanupB false ((cleanupB false s t).state) t =
      ⟨(cleanupB false s t).state, [CleanupAction.unregister], false⟩ := by
  have e : cleanupB false ((cleanupB false s t).state) t =
      ⟨(cleanupB false ((cleanupB false s t).state) t).state,
       (cleanupB false ((cleanupB false s t).state) t).trace,
       (cleanupB false ((cleanupB false s t).state) t).raised⟩ := rfl
  rw [e, cleanupB_state_eq (cleanupB false s t).state t,
    cleanupB_trace_eq (cleanupB false s t).state t,
    cleanupB_no_raise (cleanupB false s t).state t, cleanupB_state_eq s t]
  simp [mdel_mdel, ldel_ldel, mlookup_mdel_self]

/-! The claims. -/

/-- Claim C1 as stated is false at a concrete reachable input: with
`maxPeersPerTorrent = 1`, topic 0 is added, the single discovery pass
answers one remote advertisement, and after both in-flight connections
complete the peer set holds 2 peers — the completion that arrived after
the cap was reached was added, not dropped. -/
theorem c1_cap_exceeded_counterexample :
    ¬ peerCountA stateC1 0 ≤ 1 ∧ peerCountA stateC1 0 = 2 := by decide

/-- Claim C1, amended: the cap only prevents a discovery pass from
issuing new work — a pass starting at or above the cap does nothing, in
both variants — but a connection completion is always added to the peer
set with no capacity check, so the cap can be exceeded by in-flight
completions. -/
theorem c1_cap_only_guards_new_passes :
    (∀ (m : Nat) (env : EnvA) (s : StateA) (t : Nat), m ≤ peerCountA s t →
      discoverPeersForTorrentA m env s t = ⟨s, false, false, 0, none, []⟩) ∧
    (∀ (s : StateA) (t p : Nat) (ps : List Nat), mlookup s.torrentPeers t = some ps →
      mlookup ((onConnectedA s t p).torrentPeers) t = some (sadd ps p)) ∧
    (∀ (m : Nat) (env : EnvB) (s : StateB) (t : Nat), m ≤ peerCountB s t →
      discoverPeersForTorrentB m env s t = ⟨s, false, false, []⟩) := by
  refine ⟨passA_guard, ?_, passB_guard⟩
  intro s t p ps h
  simp [onConnectedA, h, mlookup_mset_self]

/-- Witness for the amended claim C1 at concrete inputs. -/
theorem c1_cap_only_guards_new_passes_witness :
    (1 ≤ peerCountA stateCapW 0 ∧
     discoverPeersForTorrentA 1 envC1 stateCapW 0 = ⟨stateCapW, false, false, 0, none, []⟩) ∧
    (mlookup stateCapW.torrentPeers 0 = some [3] ∧
     mlookup ((onConnectedA stateCapW 0 9).torrentPeers) 0 = some (sadd [3] 9)) ∧
    (1 ≤ peerCountB stateC7 0 ∧
     discoverPeersForTorrentB 1 envB0 stateC7 0 = ⟨stateC7, false, false, []⟩) :=
  ⟨⟨by decide, c1_cap_only_guards_new_passes.1 1 envC1 stateCapW 0 (by decide)⟩,
   ⟨by decide, c1_cap_only_guards_new_passes.2.1 stateCapW 0 9 [3] (by decide)⟩,
   ⟨by decide, c1_cap_only_guards_new_passes.2.2 1 envB0 stateC7 0 (by decide)⟩⟩

/-- Claim C2 as stated is false at a concrete input: identity 7 is
answered in pass 1 and recorded in the dedup filter, yet when the
service returns an advertisement from 7 again in pass 2, it is handed to
the connector a second time — there is no client-side membership check. -/
theorem c2_dedup_counterexample :
    (discoverPeersForTorrentA 50 envC2a stateC2 0).answered = [7] ∧
    mlookup ((discoverPeersForTorrentA 50 envC2a stateC2 0).state).torrentBloomFilters 0
      = some [7] ∧
    (discoverPeersForTorrentA 50 envC2b
        (discoverPeersForTorrentA 50 envC2a stateC2 0).state 0).answered = [7] := by
  decide

/-- Claim C2, amended: every processed identity is recorded in the
resource's dedup filter, and the filter's contents are sent with each
discovery query so the service can omit known identities; but the client
itself never tests membership — a non-self, unanswered advertisement is
handed to the connector regardless of the filter's contents. -/
theorem c2_filter_recorded_and_sent :
    (∀ (selfId : Nat) (s : StateA) (t : Nat) (a : RemoteOffer) (f : List Nat),
      a.peerId ≠ selfId → a.answererPeerId = none →
      mlookup s.torrentBloomFilters t = some f →
      ((processAdvertA selfId s t a).1).torrentBloomFilters
        = mset s.torrentBloomFilters t (sadd f a.peerId) ∧
      (processAdvertA selfId s t a).2 = some a.peerId) ∧
    (∀ (m : Nat) (env : EnvA) (s : StateA) (t : Nat),
      peerCountA s t < m → env.offerOk = true →
      (discoverPeersForTorrentA m env s t).queryFilter
        = mlookup s.torrentBloomFilters t) := by
  constructor
  · intro selfId s t a f hs ha hf
    exact ⟨processAdvertA_records selfId s t a f hs ha hf,
      processAdvertA_answers selfId s t a hs ha⟩
  · intro m env s t hc ho
    exact (passA_query_filter m env s t hc ho).1

/-- Witness for the amended claim C2: identity 7 is already in the
filter, yet its advertisement is still handed to the connector. -/
theorem c2_filter_recorded_and_sent_witness :
    ((7 : Nat) ≠ 0 ∧
     mlookup stateC2W.torrentBloomFilters 0 = some [7] ∧
     ((processAdvertA 0 stateC2W 0 ⟨12, 7, none⟩).1).torrentBloomFilters
       = mset stateC2W.torrentBloomFilters 0 (sadd [7] 7) ∧
     (processAdvertA 0 stateC2W 0 ⟨12, 7, none⟩).2 = some 7) ∧
    (peerCountA stateC2W 0 < 50 ∧
     (discoverPeersForTorrentA 50 envC2a stateC2W 0).queryFilter
       = mlookup stateC2W.torrentBloomFilters 0) :=
  ⟨⟨by decide, by decide,
    (c2_filter_recorded_and_sent.1 0 stateC2W 0 ⟨12, 7, none⟩ [7]
      (by decide) (by decide) (by decide)).1,
    (c2_filter_recorded_and_sent.1 0 stateC2W 0 ⟨12, 7, none⟩ [7]
      (by decide) (by decide) (by decide)).2⟩,
   ⟨by decide, c2_filter_recorded_and_sent.2 50 envC2a stateC2W 0 (by decide) (by decide)⟩⟩

/-- Claim C3 as stated is false at a concrete input: re-adding the
already-tracked topic 0 is not a no-op — it wipes the topic's peer set,
starts a second refresh interval (both intervals 1 and 2 are live
afterwards), and only the newer interval remains tracked. -/
theorem c3_readd_not_noop_counterexample :
    handleTorrentAddedA 50 envC3 stateC3 0 2 ≠ stateC3 ∧
    (handleTorrentAddedA 50 envC3 stateC3 0 2).liveIntervals = [1, 2] ∧
    mlookup ((handleTorrentAddedA 50 envC3 stateC3 0 2).refreshTimers) 0 = some 2 ∧
    mlookup ((handleTorrentAddedA 50 envC3 stateC3 0 2).torrentPeers) 0 = some [] := by
  decide

/-- Claim C3, amended: the resource-added handler has no idempotency
guard — every invocation, including one for an already-tracked topic,
resets the topic's peer set to empty, appends a freshly created refresh
interval to the live intervals (never clearing an earlier one, which
stays live but untracked), and re-points the timer map at the new
interval. -/
theorem c3_readd_resets_and_leaks_timer :
    ∀ (m : Nat) (env : EnvA) (s : StateA) (t timerId : Nat),
    mlookup ((handleTorrentAddedA m env s t timerId).refreshTimers) t = some timerId ∧
    (handleTorrentAddedA m env s t timerId).liveIntervals
      = s.liveIntervals ++ [timerId] ∧
    mlookup ((handleTorrentAddedA m env s t timerId).torrentPeers) t = some [] := by
  intro m env s t timerId
  have hp := passA_preserved_fields m env
    { s with torrentPeers := mset s.torrentPeers t [],
             torrentOffers := mset s.torrentOffers t [],
             torrentBloomFilters := mset s.torrentBloomFilters t [] } t
  simp only [handleTorrentAddedA]
  refine ⟨?_, ?_, ?_⟩ <;>
    simp [hp.1, hp.2.1, hp.2.2.1, hp.2.2.2.1, hp.2.2.2.2, mlookup_mset_self]

/-- Claim C4 as stated is false at a concrete input: in the pooled
variant's teardown the tracked offer is cancelled before the tracked
peers are closed (so peer-closing does not precede offer-cancellation),
and when the offer cancellation throws, the peer-closing step never
executes at all — the peer stays tracked. -/
theorem c4_teardown_order_counterexample :
    closesPrecedeCancels (cleanupB false stateC4 0).trace = false ∧
    (cleanupB true stateC4 0).raised = true ∧
    (cleanupB true stateC4 0).trace
      = [CleanupAction.cancelTimer 1, CleanupAction.cancelOffer 9] ∧
    mlookup ((cleanupB true stateC4 0).state).torrentPeers 0 = some [5] := by decide

/-- Claim C4, amended: the bloom-filter variant tears down in the order
cancel timer, close peers, cancel offers, release filter, unregister
(map entries removed per step, with individually guarded closes and
cancels); the pooled variant tears down in the order cancel timer,
cancel offer, close peers, unregister, and its unguarded offer
cancellation aborts the remaining steps when it throws synchronously. -/
theorem c4_teardown_order_by_variant :
    (∀ (s : StateA) (t : Nat),
      (cleanupA s t).trace =
        (match mlookup s.refreshTimers t with
         | some tid => [CleanupAction.cancelTimer tid]
         | none => []) ++
        ((mlookup s.torrentPeers t).getD []).map CleanupAction.closePeer ++
        ((mlookup s.torrentOffers t).getD []).map CleanupAction.cancelOffer ++
        [CleanupAction.releaseFilter, CleanupAction.unregister]) ∧
    (∀ (s : StateB) (t : Nat),
      (cleanupB false s t).trace =
        (match mlookup s.refreshTimers t with
         | some tid => [CleanupAction.cancelTimer tid]
         | none => []) ++
        (match mlookup s.torrentOfferHandles t with
         | some oid => [CleanupAction.cancelOffer oid]
         | none => []) ++
        ((mlookup s.torrentPeers t).getD []).map CleanupAction.closePeer ++
        [CleanupAction.unregister] ∧
      (cleanupB false s t).raised = false) ∧
    (∀ (s : StateB) (t oid : Nat), mlookup s.torrentOfferHandles t = some oid →
      (cleanupB true s t).raised = true ∧
      (cleanupB true s t).trace =
        (match mlookup s.refreshTimers t with
         | some tid => [CleanupAction.cancelTimer tid]
         | none => []) ++ [CleanupAction.cancelOffer oid] ∧
      mlookup ((cleanupB true s t).state).torrentPeers t
        = mlookup s.torrentPeers t) := by
  refine ⟨cleanupA_trace_eq, fun s t => ⟨cleanupB_trace_eq s t, cleanupB_no_raise s t⟩, ?_⟩
  intro s t oid h
  have := cleanupB_abort s t oid h
  exact ⟨this.1, this.2.1, this.2.2.1⟩

/-- Witness for the amended claim C4 at a concrete input with a tracked
offer whose cancellation throws. -/
theorem c4_teardown_order_by_variant_witness :
    mlookup stateC4.torrentOfferHandles 0 = some 9 ∧
    (cleanupB true stateC4 0).raised = true ∧
    (cleanupB true stateC4 0).trace =
      (match mlookup stateC4.refreshTimers 0 with
       | some tid => [CleanupAction.cancelTimer tid]
       | none => []) ++ [CleanupAction.cancelOffer 9] ∧
    mlookup ((cleanupB true stateC4 0).state).torrentPeers 0
      = mlookup stateC4.torrentPeers 0 :=
  ⟨by decide,
   (c4_teardown_order_by_variant.2.2 stateC4 0 9 (by decide)).1,
   (c4_teardown_order_by_variant.2.2 stateC4 0 9 (by decide)).2.1,
   (c4_teardown_order_by_variant.2.2 stateC4 0 9 (by decide)).2.2⟩

/-- Claim C5 is confirmed: in both variants, running the cleanup a
second time on the state left by the first run changes nothing and
performs none of the observable effects — it cancels no timer, closes no
peer, cancels no offer, and raises nothing (the second trace holds only
the unconditional deletions of already-absent map entries, which are
no-ops). -/
theorem c5_cleanup_idempotent :
    (∀ (s : StateA) (t : Nat),
      cleanupA ((cleanupA s t).state) t
        = ⟨(cleanupA s t).state,
           [CleanupAction.releaseFilter, CleanupAction.unregister]⟩) ∧
    (∀ (s : StateB) (t : Nat),
      cleanupB false ((cleanupB false s t).state) t
        = ⟨(cleanupB false s t).state, [CleanupAction.unregister], false⟩) :=
  ⟨cleanupA_idem, cleanupB_idem⟩

/-- Claim C6 as stated is false at a concrete input: in the bloom-filter
variant a pass run while offer 4 is already tracked for topic 0 still
creates a fresh offer 9 and appends it, so the tracked offer collection
grows on every pass. -/
theorem c6_offer_growth_counterexample :
    mlookup ((discoverPeersForTorrentA 50 envC6 stateC6 0).state).torrentOffers 0
      = some [4, 9] ∧
    (discoverPeersForTorrentA 50 envC6 stateC6 0).offerCreated = true := by decide

/-- Claim C6, amended: only the pooled variant creates a fresh offer
exclusively when none is tracked (keeping the tracked handle otherwise);
the bloom-filter variant unconditionally creates a fresh offer on every
non-skipped pass and appends its id to the topic's offer list. -/
theorem c6_offer_creation_by_variant :
    (∀ (m : Nat) (env : EnvB) (s : StateB) (t : Nat),
      (mlookup s.torrentOfferHandles t).isSome = true →
      (discoverPeersForTorrentB m env s t).offerCreated = false ∧
      ((discoverPeersForTorrentB m env s t).state).torrentOfferHandles
        = s.torrentOfferHandles) ∧
    (∀ (m : Nat) (env : EnvA) (s : StateA) (t : Nat) (l : List Nat),
      peerCountA s t < m → env.offerOk = true → mlookup s.torrentOffers t = some l →
      mlookup ((discoverPeersForTorrentA m env s t).state).torrentOffers t
        = some (l ++ [env.newOfferId])) :=
  ⟨passB_offer_guard, passA_offers_grow⟩

/-- Witness for the amended claim C6 at concrete inputs. -/
theorem c6_offer_creation_by_variant_witness :
    ((mlookup stateC6W.torrentOfferHandles 0).isSome = true ∧
     (discoverPeersForTorrentB 50 envB0 stateC6W 0).offerCreated = false ∧
     ((discoverPeersForTorrentB 50 envB0 stateC6W 0).state).torrentOfferHandles
       = stateC6W.torrentOfferHandles) ∧
    (peerCountA stateC6 0 < 50 ∧ mlookup stateC6.torrentOffers 0 = some [4] ∧
     mlookup ((discoverPeersForTorrentA 50 envC6 stateC6 0).state).torrentOffers 0
       = some ([4] ++ [envC6.newOfferId])) :=
  ⟨⟨by decide, (c6_offer_creation_by_variant.1 50 envB0 stateC6W 0 (by decide)).1,
    (c6_offer_creation_by_variant.1 50 envB0 stateC6W 0 (by decide)).2⟩,
   ⟨by decide, by decide,
    c6_offer_creation_by_variant.2 50 envC6 stateC6 0 [4] (by decide) (by decide) (by decide)⟩⟩

/-- Claim C7 is confirmed: in both variants, a discovery pass starting
with the peer count at or above the cap (remaining ≤ 0) returns at once
without creating an offer or issuing the discovery query, leaving the
state — and hence the per-torrent peer counts reported by getStats —
unchanged. -/
theorem c7_skip_pass_at_cap :
    (∀ (m : Nat) (env : EnvA) (s : StateA) (t : Nat), m ≤ peerCountA s t →
      discoverPeersForTorrentA m env s t = ⟨s, false, false, 0, none, []⟩ ∧
      getStatsA ((discoverPeersForTorrentA m env s t).state) = getStatsA s) ∧
    (∀ (m : Nat) (env : EnvB) (s : StateB) (t : Nat), m ≤ peerCountB s t →
      discoverPeersForTorrentB m env s t = ⟨s, false, false, []⟩ ∧
      getStatsB ((discoverPeersForTorrentB m env s t).state) = getStatsB s) := by
  constructor
  · intro m env s t h
    have he := passA_guard m env s t h
    exact ⟨he, by rw [he]⟩
  · intro m env s t h
    have he := passB_guard m env s t h
    exact ⟨he, by rw [he]⟩

/-- Witness for claim C7: topic 0 has 2 connected peers at a cap of 2; a
manual pass is skipped entirely and getStats still reports 2. -/
theorem c7_skip_pass_at_cap_witness :
    (2 ≤ peerCountB stateC7 0 ∧
     discoverPeersForTorrentB 2 envB0 stateC7 0 = ⟨stateC7, false, false, []⟩ ∧
     getStatsB ((discoverPeersForTorrentB 2 envB0 stateC7 0).state) = getStatsB stateC7 ∧
     getStatsB stateC7 = [(0, 2)]) ∧
    (2 ≤ peerCountA stateC7A 0 ∧
     discoverPeersForTorrentA 2 envC2a stateC7A 0 = ⟨stateC7A, false, false, 0, none, []⟩) :=
  ⟨⟨by decide, (c7_skip_pass_at_cap.2 2 envB0 stateC7 0 (by decide)).1,
    (c7_skip_pass_at_cap.2 2 envB0 stateC7 0 (by decide)).2, by decide⟩,
   ⟨by decide, (c7_skip_pass_at_cap.1 2 envC2a stateC7A 0 (by decide)).1⟩⟩

/-- Claim C8 is confirmed: in both variants, when
registering/connecting to the signaling service fails during startup,
the startup routine performs no further effects — in particular the
torrent listener is never attached — so no torrent event ever reaches
the handler and no per-resource state is ever created; and in the
pooled variant the handler additionally bails out while rondevu is
unset.  Startup runs once from the constructor and nothing re-invokes
it, so the empty action list is its total effect. -/
theorem c8_inert_after_failed_startup :
    (∀ (existing : List Nat), initActionsA false existing = []) ∧
    (∀ (existing : List Nat) (m : Nat) (env : EnvA) (s : StateA)
       (events : List (Nat × Nat)),
      clientDispatchA (initActionsA false existing) m env s events = s) ∧
    (∀ (existing : List Nat), initActionsB false existing = []) ∧
    (∀ (existing : List Nat) (m : Nat) (env : EnvB) (s : StateB)
       (events : List (Nat × Nat)),
      clientDispatchB (initActionsB false existing) m env s events = s) ∧
    (∀ (m : Nat) (env : EnvB) (s : StateB) (t timerId : Nat),
      handleTorrentAddedB m env { s with rondevuReady := false } t timerId
        = { s with rondevuReady := false }) := by
  refine ⟨fun existing => by simp [initActionsA],
         fun existing m env s events => by simp [clientDispatchA, initActionsA],
         fun existing => by simp [initActionsB],
         fun existing m env s events => by simp [clientDispatchB, initActionsB],
         fun m env s t timerId => by simp [handleTorrentAddedB]⟩

/-- Claim C9 is confirmed for the pooled variant: a discovered peer
whose `rondevu.peer` promise resolves is in the torrent's peer set
already at the end of the pass (inserted at resolution time, before any
transport event); the transport open handler leaves the peer set
untouched; and the close and error handlers are what remove a peer from
the set. -/
theorem c9_peer_tracked_from_resolution :
    (∀ (m : Nat) (env : EnvB) (s : StateB) (t u : Nat),
      s.rondevuReady = true → peerCountB s t < m → env.queryOk = true →
      (mlookup s.torrentPeers t).isSome = true →
      ((mlookup s.torrentOfferHandles t).isSome = true ∨ env.offerOk = true) →
      u ∈ env.foundOffers → u ≠ env.selfName → env.connectOk u = true →
      env.peerIdOf u ∈
        (mlookup ((discoverPeersForTorrentB m env s t).state).torrentPeers t).getD []) ∧
    (∀ (s : StateB) (t p : Nat), (onOpenB s t p).torrentPeers = s.torrentPeers) ∧
    (∀ (s : StateB) (t p : Nat) (ps : List Nat), mlookup s.torrentPeers t = some ps →
      mlookup ((onCloseB s t p).torrentPeers) t = some (sdel ps p) ∧
      mlookup ((onErrorB s t p).torrentPeers) t = some (sdel ps p)) := by
  refine ⟨passB_connects, fun s t p => rfl, ?_⟩
  intro s t p ps h
  constructor <;> simp [onCloseB, onErrorB, h, mlookup_mset_self]

/-- Witness for claim C9 at a concrete input: username 3's connection
resolves and peer object 103 is tracked at the end of the pass. -/
theorem c9_peer_tracked_from_resolution_witness :
    (stateC9.rondevuReady = true ∧ peerCountB stateC9 0 < 50 ∧
     envB0.queryOk = true ∧ (mlookup stateC9.torrentPeers 0).isSome = true ∧
     (mlookup stateC9.torrentOfferHandles 0).isSome = true ∧
     3 ∈ envB0.foundOffers ∧ (3 : Nat) ≠ envB0.selfName ∧ envB0.connectOk 3 = true ∧
     envB0.peerIdOf 3 ∈
       (mlookup ((discoverPeersForTorrentB 50 envB0 stateC9 0).state).torrentPeers 0).getD []) ∧
    (mlookup stateC9.torrentPeers 0 = some [] ∧
     mlookup ((onCloseB stateC9 0 7).torrentPeers) 0 = some (sdel [] 7)) :=
  ⟨⟨by decide, by decide, by decide, by decide, by decide, by decide, by decide, by decide,
    c9_peer_tracked_from_resolution.1 50 envB0 stateC9 0 3 (by decide) (by decide)
      (by decide) (by decide) (Or.inl (by decide)) (by decide) (by decide) (by decide)⟩,
   ⟨by decide,
    (c9_peer_tracked_from_resolution.2.2 stateC9 0 7 [] (by decide)).1⟩⟩

/-- Claim C10 is confirmed for the bloom-filter variant: an
advertisement whose `answererPeerId` is set is skipped — its processing
step changes nothing and hands nothing to the connector — so its origin
identity is not recorded in the dedup filter; a pass whose discovered
offers are all already answered answers nothing and leaves every filter
untouched. -/
theorem c10_skip_answered_offers :
    (∀ (selfId : Nat) (s : StateA) (t : Nat) (a : RemoteOffer),
      a.answererPeerId.isSome = true → processAdvertA selfId s t a = (s, none)) ∧
    (∀ (m : Nat) (env : EnvA) (s : StateA) (t : Nat),
      (∀ a ∈ env.foundOffers, a.answererPeerId.isSome = true) →
      (discoverPeersForTorrentA m env s t).answered = [] ∧
      ((discoverPeersForTorrentA m env s t).state).torrentBloomFilters
        = s.torrentBloomFilters) := by
  refine ⟨processAdvertA_skip_answered, ?_⟩
  intro m env s t hall
  unfold discoverPeersForTorrentA
  by_cases hc : m ≤ peerCountA s t
  · simp [hc]
  · by_cases ho : env.offerOk
    · cases hl : mlookup s.torrentOffers t with
      | none =>
        have hskip := processAdvertsA_all_skip env.selfId t env.foundOffers hall s
        by_cases hq : env.queryOk <;> simp [hc, ho, hq, hl, hskip]
      | some l =>
        have hskip := processAdvertsA_all_skip env.selfId t env.foundOffers hall
          { s with torrentOffers := mset s.torrentOffers t (l ++ [env.newOfferId]) }
        by_cases hq : env.queryOk <;> simp [hc, ho, hq, hl, hskip]
    · simp [hc, ho]

/-- Witness for claim C10 at a concrete input: the only advertisement
found was already answered, so nothing is answered and the filter stays
empty. -/
theorem c10_skip_answered_offers_witness :
    ((⟨1, 7, some 3⟩ : RemoteOffer).answererPeerId.isSome = true ∧
     processAdvertA 0 stateC2 0 ⟨1, 7, some 3⟩ = (stateC2, none)) ∧
    ((∀ a ∈ envC10.foundOffers, a.answererPeerId.isSome = true) ∧
     (discoverPeersForTorrentA 50 envC10 stateC2 0).answered = [] ∧
     ((discoverPeersForTorrentA 50 envC10 stateC2 0).state).torrentBloomFilters
       = stateC2.torrentBloomFilters) :=
  ⟨⟨by decide, c10_skip_answered_offers.1 0 stateC2 0 ⟨1, 7, some 3⟩ (by decide)⟩,
   ⟨by decide, (c10_skip_answered_offers.2 50 envC10 stateC2 0 (by decide)).1,
    (c10_skip_answered_offers.2 50 envC10 stateC2 0 (by decide)).2⟩⟩
